import Mathlib

/-!
Shallow embedding of aiohttp client_exceptions.py: the failure-classification
taxonomy of the HTTP client.  Classes become an inductive of class names with
an explicit base-class list (parameterised by whether the ssl module imported
successfully), and each claim-relevant variant becomes a structure holding the
attributes its initializer stores, together with the attributes the CPython
exception machinery sets on construction:

* BaseException new captures the positional argument tuple in args even when
  a subclass overrides the initializer without chaining to the base, so a
  variant such as ServerFingerprintMismatch still has a 4-tuple in args.
* An OSError subclass that overrides the initializer while keeping the
  inherited new defers argument parsing to the initializer: new leaves args
  empty and errno / strerror unset, and only an explicit chained call to the
  OSError initializer with two arguments fills errno, strerror and args.
  ClientConnectorError chains that call; ClientConnectorCertificateError does
  not.

The era of this source tree has ssl.SSLError deriving from OSError and
ssl.CertificateError deriving from ValueError.
-/

/-- Python runtime values appearing in exception argument tuples: strings,
integers and None are the only shapes the claims exercise. -/
inductive PyVal where
  | str : String → PyVal
  | int : Int → PyVal
  | none : PyVal
deriving DecidableEq, Repr

/-- An apostrophe character, used by the Python repr of strings. -/
def singleQuote : Char := '\x27'

/-- Python str() of a value. -/
def pyStrVal : PyVal → String
  | PyVal.str s => s
  | PyVal.int n => toString n
  | PyVal.none => "None"

/-- Python repr() of a value (string escaping is not modelled; the inputs the
claims use contain no quotes or backslashes). -/
def pyReprVal : PyVal → String
  | PyVal.str s => String.singleton singleQuote ++ s ++ String.singleton singleQuote
  | PyVal.int n => toString n
  | PyVal.none => "None"

/-- Comma-space separated concatenation, as in the Python repr of a tuple. -/
def commaSep : List String → String
  | [] => ""
  | [x] => x
  | x :: y :: rest => x ++ ", " ++ commaSep (y :: rest)

/-- Python repr of a tuple of values: a one-element tuple keeps a trailing
comma. -/
def pyTupleRepr (l : List PyVal) : String :=
  match l with
  | [] => "()"
  | [x] => "(" ++ pyReprVal x ++ ",)"
  | xs => "(" ++ commaSep (xs.map pyReprVal) ++ ")"

/-- CPython BaseException str(): empty for no args, str of the single arg for
one, and the repr of the whole args tuple otherwise. -/
def baseExcStr (args : List PyVal) : String :=
  match args with
  | [] => ""
  | [x] => pyStrVal x
  | xs => pyTupleRepr xs

/-- Python str() of a Bool. -/
def pyBool : Bool → String
  | true => "True"
  | false => "False"

/-- Python rendering of an optional string attribute inside a format slot:
a missing value prints as None. -/
def optStrOrNone : Option String → String
  | Option.none => "None"
  | some s => s

/-- Lift an optional OS errno into a Python value. -/
def pyOfOptInt : Option Int → PyVal
  | Option.none => PyVal.none
  | some n => PyVal.int n

/-- Lift an optional OS error description into a Python value. -/
def pyOfOptStr : Option String → PyVal
  | Option.none => PyVal.none
  | some s => PyVal.str s

/-- Whether the character list starts with the given pattern. -/
def startsWithChars : List Char → List Char → Bool
  | [], _ => true
  | _ :: _, [] => false
  | a :: as, b :: bs => a == b && startsWithChars as bs

/-- Whether the pattern occurs as a contiguous run inside the character
list. -/
def containsChars (pat : List Char) : List Char → Bool
  | [] => pat.isEmpty
  | c :: rest => startsWithChars pat (c :: rest) || containsChars pat rest

/-- Whether the string s contains pat as a substring, the shallow form of
the Python membership test pat in s. -/
def strContains (s pat : String) : Bool :=
  containsChars pat.data s.data

/-- The classes of the taxonomy plus the builtin and ssl-module classes they
derive from. -/
inductive PyClass where
  | «Exception» : PyClass
  | OSError : PyClass
  | ValueError : PyClass
  | TimeoutError : PyClass
  | SSLError : PyClass
  | CertificateError : PyClass
  | ClientError : PyClass
  | ClientResponseError : PyClass
  | ContentTypeError : PyClass
  | WSServerHandshakeError : PyClass
  | ClientHttpProxyError : PyClass
  | ClientConnectionError : PyClass
  | ClientOSError : PyClass
  | ClientConnectorError : PyClass
  | ClientProxyConnectionError : PyClass
  | ServerConnectionError : PyClass
  | ServerDisconnectedError : PyClass
  | ServerTimeoutError : PyClass
  | ServerFingerprintMismatch : PyClass
  | ClientPayloadError : PyClass
  | InvalidURL : PyClass
  | ClientConnectorSSLError : PyClass
  | ClientConnectorCertificateError : PyClass
deriving DecidableEq, Repr

/-- Direct base classes of each class, translated from the class headers of
client_exceptions.py.  The sslAvailable flag is the outcome of the one-time
ssl-availability probe at the top of the module: the base tuples of
ClientConnectorSSLError and ClientConnectorCertificateError are chosen from
ssl_error_bases and certificate_errors_bases, which depend on it. -/
def bases (sslAvailable : Bool) : PyClass → List PyClass
  | PyClass.Exception => []
  | PyClass.OSError => [PyClass.Exception]
  | PyClass.ValueError => [PyClass.Exception]
  | PyClass.TimeoutError => [PyClass.Exception]
  | PyClass.SSLError => [PyClass.OSError]
  | PyClass.CertificateError => [PyClass.ValueError]
  | PyClass.ClientError => [PyClass.Exception]
  | PyClass.ClientResponseError => [PyClass.ClientError]
  | PyClass.ContentTypeError => [PyClass.ClientResponseError]
  | PyClass.WSServerHandshakeError => [PyClass.ClientResponseError]
  | PyClass.ClientHttpProxyError => [PyClass.ClientResponseError]
  | PyClass.ClientConnectionError => [PyClass.ClientError]
  | PyClass.ClientOSError => [PyClass.ClientConnectionError, PyClass.OSError]
  | PyClass.ClientConnectorError => [PyClass.ClientOSError]
  | PyClass.ClientProxyConnectionError => [PyClass.ClientConnectorError]
  | PyClass.ServerConnectionError => [PyClass.ClientConnectionError]
  | PyClass.ServerDisconnectedError => [PyClass.ServerConnectionError]
  | PyClass.ServerTimeoutError => [PyClass.ServerConnectionError, PyClass.TimeoutError]
  | PyClass.ServerFingerprintMismatch => [PyClass.ServerConnectionError]
  | PyClass.ClientPayloadError => [PyClass.ClientError]
  | PyClass.InvalidURL => [PyClass.ClientError, PyClass.ValueError]
  | PyClass.ClientConnectorSSLError =>
      if sslAvailable then [PyClass.ClientConnectorError, PyClass.SSLError]
      else [PyClass.ClientConnectorError]
  | PyClass.ClientConnectorCertificateError =>
      if sslAvailable then [PyClass.ClientConnectorError, PyClass.CertificateError]
      else [PyClass.ClientConnectorError, PyClass.ValueError]

/-- Reflexive-transitive closure of the base relation, bounded by a fuel
argument; every chain in the hierarchy has length below seven, so fuel ten
computes the full closure. -/
def isSubclassAux (sslAvailable : Bool) : Nat → PyClass → PyClass → Bool
  | 0, _, _ => false
  | fuel + 1, c, d =>
      c == d || (bases sslAvailable c).any (fun b => isSubclassAux sslAvailable fuel b d)

/-- Python issubclass, and via type(v) also isinstance, for the taxonomy. -/
def isSubclass (sslAvailable : Bool) (c d : PyClass) : Bool :=
  isSubclassAux sslAvailable 10 c d

/-- Connection identity of a connection attempt: the (host, port,
TLS-requested) triple, an external collaborator record read but not computed
by the taxonomy. -/
structure ConnectionKey where
  host : String
  port : Nat
  ssl : Bool
deriving DecidableEq, Repr

/-- The underlying OS error attached to connector failures: an errno and a
description, each possibly absent. -/
structure OsErrorData where
  errno : Option Int
  strerror : Option String
deriving DecidableEq, Repr

/-- An underlying error object attached as diagnostic payload: its class
name and its argument tuple, the two attributes the formatter reads. -/
structure PyExceptionObj where
  className : String
  args : List PyVal
deriving DecidableEq, Repr

/-- Request descriptor (method, URL, headers) of the originating request, an
external collaborator record stored verbatim. -/
structure RequestInfo where
  method : String
  url : String
  headers : List (String × String)
deriving DecidableEq, Repr

/-- One prior response summary in a response history; its content is opaque
to the taxonomy, which only stores the sequence. -/
structure ResponseSummary where
  ident : Nat
deriving DecidableEq, Repr

/-- ClientResponseError: request_info, code, message, headers and history are
stored as given, and the chained base initializer renders code and message
into the single-element args tuple. -/
structure ClientResponseError where
  request_info : RequestInfo
  code : Nat
  message : String
  headers : Option (List (String × String))
  history : List ResponseSummary
  args : List PyVal
deriving DecidableEq, Repr

/-- The ClientResponseError initializer. -/
def ClientResponseError.init (request_info : RequestInfo) (history : List ResponseSummary)
    (code : Nat) (message : String) (headers : Option (List (String × String))) :
    ClientResponseError :=
  { request_info := request_info, code := code, message := message, headers := headers,
    history := history,
    args := [PyVal.str (toString code ++ ", message=" ++ String.singleton singleQuote
      ++ message ++ String.singleton singleQuote)] }

/-- ClientConnectorError: stores the connection key and the OS error, and
chains to the OSError initializer with (errno, strerror), which sets errno,
strerror and the two-element args tuple. -/
structure ClientConnectorError where
  conn_key : ConnectionKey
  os_error : OsErrorData
  errno : Option Int
  strerror : Option String
  args : List PyVal
deriving DecidableEq, Repr

/-- The ClientConnectorError initializer. -/
def ClientConnectorError.init (connection_key : ConnectionKey) (os_error : OsErrorData) :
    ClientConnectorError :=
  { conn_key := connection_key, os_error := os_error,
    errno := os_error.errno, strerror := os_error.strerror,
    args := [pyOfOptInt os_error.errno, pyOfOptStr os_error.strerror] }

/-- The os_error accessor, reading the stored OS error. -/
def ClientConnectorError.osError (e : ClientConnectorError) : OsErrorData :=
  e.os_error

/-- The host accessor, reading through the stored connection key. -/
def ClientConnectorError.host (e : ClientConnectorError) : String :=
  e.conn_key.host

/-- The port accessor, reading through the stored connection key. -/
def ClientConnectorError.port (e : ClientConnectorError) : Nat :=
  e.conn_key.port

/-- The ssl accessor, reading through the stored connection key. -/
def ClientConnectorError.ssl (e : ClientConnectorError) : Bool :=
  e.conn_key.ssl

/-- The overriding str of ClientConnectorError: Cannot connect to host
host:port ssl:flag [strerror]. -/
def ClientConnectorError.str (e : ClientConnectorError) : String :=
  "Cannot connect to host " ++ e.host ++ ":" ++ toString e.port
    ++ " ssl:" ++ pyBool e.ssl ++ " [" ++ optStrOrNone e.strerror ++ "]"

/-- ClientConnectorSSLError has no body of its own; its attribute layout and
initializer are inherited from ClientConnectorError whether or not ssl is
available. -/
structure ClientConnectorSSLError extends ClientConnectorError
deriving DecidableEq, Repr

/-- The inherited initializer of ClientConnectorSSLError. -/
def ClientConnectorSSLError.init (connection_key : ConnectionKey) (os_error : OsErrorData) :
    ClientConnectorSSLError :=
  { toClientConnectorError := ClientConnectorError.init connection_key os_error }

/-- Class of every ClientConnectorSSLError value. -/
def ClientConnectorSSLError.pyClass (_ : ClientConnectorSSLError) : PyClass :=
  PyClass.ClientConnectorSSLError

/-- ClientConnectorCertificateError: its initializer stores only the
connection key and the certificate error and never chains to the OSError
initializer, so errno and strerror stay unset and the args tuple stays the
empty tuple the deferred OSError new produced.  The certificate error slot is
an Option because the dynamically typed source accepts None there. -/
structure ClientConnectorCertificateError where
  conn_key : ConnectionKey
  certificate_error : Option PyExceptionObj
  errno : Option Int
  strerror : Option String
  args : List PyVal
deriving DecidableEq, Repr

/-- The ClientConnectorCertificateError initializer. -/
def ClientConnectorCertificateError.init (connection_key : ConnectionKey)
    (certificate_error : Option PyExceptionObj) : ClientConnectorCertificateError :=
  { conn_key := connection_key, certificate_error := certificate_error,
    errno := Option.none, strerror := Option.none, args := [] }

/-- The certificate_error accessor. -/
def ClientConnectorCertificateError.certificateError (e : ClientConnectorCertificateError) :
    Option PyExceptionObj :=
  e.certificate_error

/-- The host accessor, reading through the stored connection key. -/
def ClientConnectorCertificateError.host (e : ClientConnectorCertificateError) : String :=
  e.conn_key.host

/-- The port accessor, reading through the stored connection key. -/
def ClientConnectorCertificateError.port (e : ClientConnectorCertificateError) : Nat :=
  e.conn_key.port

/-- The ssl accessor, reading through the stored connection key. -/
def ClientConnectorCertificateError.ssl (e : ClientConnectorCertificateError) : Bool :=
  e.conn_key.ssl

/-- Class of every ClientConnectorCertificateError value. -/
def ClientConnectorCertificateError.pyClass (_ : ClientConnectorCertificateError) : PyClass :=
  PyClass.ClientConnectorCertificateError

/-- The overriding str of ClientConnectorCertificateError.  The format reads
the class name and the args attribute of the stored certificate error; when
that slot holds None, reading args raises AttributeError, which the Except
error branch models. -/
def ClientConnectorCertificateError.strE (e : ClientConnectorCertificateError) :
    Except String String :=
  match e.certificate_error with
  | Option.none =>
      Except.error "AttributeError: NoneType object has no attribute args"
  | some ce =>
      Except.ok ("Cannot connect to host " ++ e.conn_key.host ++ ":"
        ++ toString e.conn_key.port ++ " ssl:" ++ pyBool e.conn_key.ssl
        ++ " [" ++ ce.className ++ ": " ++ pyTupleRepr ce.args ++ "]")

/-- ServerDisconnectedError: stores the optional message; the base new
captures whatever positional arguments the call passed. -/
structure ServerDisconnectedError where
  message : PyVal
  args : List PyVal
deriving DecidableEq, Repr

/-- ServerDisconnectedError() with the message argument left to its None
default: the captured argument tuple is empty. -/
def ServerDisconnectedError.initDefault : ServerDisconnectedError :=
  { message := PyVal.none, args := [] }

/-- ServerDisconnectedError(message) with an explicit message: the captured
argument tuple holds it. -/
def ServerDisconnectedError.init (message : PyVal) : ServerDisconnectedError :=
  { message := message, args := [message] }

/-- The inherited BaseException str of ServerDisconnectedError. -/
def ServerDisconnectedError.str (e : ServerDisconnectedError) : String :=
  baseExcStr e.args

/-- ServerFingerprintMismatch: the initializer stores the four fields and
does not chain to the base initializer, but the base new has already captured
the four positional arguments as the args tuple. -/
structure ServerFingerprintMismatch where
  expected : String
  got : String
  host : String
  port : Nat
  args : List PyVal
deriving DecidableEq, Repr

/-- The ServerFingerprintMismatch initializer. -/
def ServerFingerprintMismatch.init (expected got host : String) (port : Nat) :
    ServerFingerprintMismatch :=
  { expected := expected, got := got, host := host, port := port,
    args := [PyVal.str expected, PyVal.str got, PyVal.str host, PyVal.int (Int.ofNat port)] }

/-- The repr of ServerFingerprintMismatch, the display form the class itself
defines. -/
def ServerFingerprintMismatch.reprOf (e : ServerFingerprintMismatch) : String :=
  "<ServerFingerprintMismatch expected=" ++ e.expected ++ " got=" ++ e.got
    ++ " host=" ++ e.host ++ " port=" ++ toString e.port ++ ">"

/-- The inherited BaseException str of ServerFingerprintMismatch, computed
from the captured args tuple. -/
def ServerFingerprintMismatch.str (e : ServerFingerprintMismatch) : String :=
  baseExcStr e.args

/-- InvalidURL: the initializer chains the url to the base initializer, so
the args tuple holds exactly the url. -/
structure InvalidURL where
  args : List PyVal
deriving DecidableEq, Repr

/-- The InvalidURL initializer. -/
def InvalidURL.init (url : PyVal) : InvalidURL :=
  { args := [url] }

/-- The url accessor: args[0]; the Option models the IndexError an empty
tuple would raise, which no constructed value exhibits. -/
def InvalidURL.url (e : InvalidURL) : Option PyVal :=
  e.args.head?

/-- Class of every InvalidURL value. -/
def InvalidURL.pyClass (_ : InvalidURL) : PyClass :=
  PyClass.InvalidURL

/-- The connection identity used by the concrete test vectors of the
claims. -/
def exampleKey : ConnectionKey :=
  { host := "example.com", port := 443, ssl := true }

/-- The OS error used by the concrete test vectors of the claims. -/
def exampleOsError : OsErrorData :=
  { errno := some 61, strerror := some "Connection refused" }

/-- Claim C1, as stated, fails: the diagnostic string of the connector error
built from (example.com, 443, tls requested) and errno 61 Connection refused
does not contain tls:true, because the source formats the flag as ssl: with
Python bool rendering. -/
theorem C1_counterexample :
    strContains ((ClientConnectorError.init exampleKey exampleOsError).str) "tls:true"
      = false := by decide

/-- Claim C1 amended: the host, port and TLS-flag accessors return the values
of the stored connection identity (in general and at the concrete vector),
and the diagnostic string contains example.com:443 and the ssl:True flag
rendering used by the source. -/
theorem C1_amended :
    (ClientConnectorError.init exampleKey exampleOsError).host = "example.com"
    ∧ (ClientConnectorError.init exampleKey exampleOsError).port = 443
    ∧ (ClientConnectorError.init exampleKey exampleOsError).ssl = true
    ∧ (∀ (k : ConnectionKey) (o : OsErrorData),
        (ClientConnectorError.init k o).host = k.host
        ∧ (ClientConnectorError.init k o).port = k.port
        ∧ (ClientConnectorError.init k o).ssl = k.ssl)
    ∧ strContains ((ClientConnectorError.init exampleKey exampleOsError).str)
        "example.com:443" = true
    ∧ strContains ((ClientConnectorError.init exampleKey exampleOsError).str)
        "ssl:True" = true :=
  ⟨rfl, rfl, rfl, fun k o => ⟨rfl, rfl, rfl⟩, by decide, by decide⟩

/-- Claim C2, as stated, fails: with TLS unavailable,
ClientConnectorSSLError is not classified as an invalid-argument error,
because ssl_error_bases then holds only ClientConnectorError and no
ValueError. -/
theorem C2_counterexample :
    isSubclass false PyClass.ClientConnectorSSLError PyClass.ValueError = false := by decide

/-- Claim C2 amended: with TLS unavailable, both degraded variants are
connector errors and carry no TLS base class;
ClientConnectorCertificateError is additionally an invalid-argument error,
but ClientConnectorSSLError is not. -/
theorem C2_amended :
    isSubclass false PyClass.ClientConnectorSSLError PyClass.ClientConnectorError = true
    ∧ isSubclass false PyClass.ClientConnectorSSLError PyClass.ValueError = false
    ∧ isSubclass false PyClass.ClientConnectorCertificateError PyClass.ClientConnectorError = true
    ∧ isSubclass false PyClass.ClientConnectorCertificateError PyClass.ValueError = true
    ∧ isSubclass false PyClass.ClientConnectorSSLError PyClass.SSLError = false
    ∧ isSubclass false PyClass.ClientConnectorCertificateError PyClass.CertificateError
        = false := by decide

/-- Claim C3, as stated, fails: formatting a
ClientConnectorCertificateError whose certificate error slot holds None
raises an AttributeError when the format reads the args attribute of the
missing error, instead of substituting a placeholder. -/
theorem C3_counterexample :
    (ClientConnectorCertificateError.init exampleKey Option.none).strE
      = Except.error "AttributeError: NoneType object has no attribute args" := rfl

/-- Claim C3 amended: every formatter is a pure function of the stored
fields; formatting succeeds for every certificate error value whose
certificate error is present, for a connector error with a missing OS error
description (rendered None), and for a server disconnect with no message
(rendered as the empty string); only a certificate error whose certificate
error slot holds None makes formatting raise. -/
theorem C3_amended :
    (∀ (k : ConnectionKey) (ce : PyExceptionObj),
      ∃ s, (ClientConnectorCertificateError.init k (some ce)).strE = Except.ok s)
    ∧ (∀ k : ConnectionKey,
      (ClientConnectorCertificateError.init k Option.none).strE
        = Except.error "AttributeError: NoneType object has no attribute args")
    ∧ (ClientConnectorError.init exampleKey
        { errno := some 61, strerror := Option.none }).str
        = "Cannot connect to host example.com:443 ssl:True [None]"
    ∧ ServerDisconnectedError.initDefault.str = "" :=
  ⟨fun k ce => ⟨_, rfl⟩, fun k => rfl, by decide, rfl⟩

/-- Claim C4: a fingerprint mismatch built from (AA:BB, CC:DD, h, 1234)
exposes all four fields unchanged (in general and at the concrete vector),
and both its class-defined repr display and its args-derived str contain
both fingerprint values. -/
theorem C4_fingerprint_mismatch :
    (ServerFingerprintMismatch.init "AA:BB" "CC:DD" "h" 1234).expected = "AA:BB"
    ∧ (ServerFingerprintMismatch.init "AA:BB" "CC:DD" "h" 1234).got = "CC:DD"
    ∧ (ServerFingerprintMismatch.init "AA:BB" "CC:DD" "h" 1234).host = "h"
    ∧ (ServerFingerprintMismatch.init "AA:BB" "CC:DD" "h" 1234).port = 1234
    ∧ (∀ (e g h : String) (p : Nat),
        (ServerFingerprintMismatch.init e g h p).expected = e
        ∧ (ServerFingerprintMismatch.init e g h p).got = g
        ∧ (ServerFingerprintMismatch.init e g h p).host = h
        ∧ (ServerFingerprintMismatch.init e g h p).port = p)
    ∧ strContains ((ServerFingerprintMismatch.init "AA:BB" "CC:DD" "h" 1234).reprOf)
        "AA:BB" = true
    ∧ strContains ((ServerFingerprintMismatch.init "AA:BB" "CC:DD" "h" 1234).reprOf)
        "CC:DD" = true
    ∧ strContains ((ServerFingerprintMismatch.init "AA:BB" "CC:DD" "h" 1234).str)
        "AA:BB" = true
    ∧ strContains ((ServerFingerprintMismatch.init "AA:BB" "CC:DD" "h" 1234).str)
        "CC:DD" = true :=
  ⟨rfl, rfl, rfl, rfl, fun e g h p => ⟨rfl, rfl, rfl, rfl⟩,
    by decide, by decide, by decide, by decide⟩

/-- Claim C5: every TLS-variant value is classified as a connection-category
failure whether or not TLS is available, and with TLS available each also
satisfies its specific category (TLS failure, certificate failure). -/
theorem C5_category_membership :
    (∀ (s : Bool) (e : ClientConnectorSSLError),
      isSubclass s (e.pyClass) PyClass.ClientConnectionError = true)
    ∧ (∀ (s : Bool) (e : ClientConnectorCertificateError),
      isSubclass s (e.pyClass) PyClass.ClientConnectionError = true)
    ∧ (∀ e : ClientConnectorSSLError, isSubclass true (e.pyClass) PyClass.SSLError = true)
    ∧ (∀ e : ClientConnectorCertificateError,
      isSubclass true (e.pyClass) PyClass.CertificateError = true) :=
  ⟨fun s _ => by cases s <;> rfl, fun s _ => by cases s <;> rfl,
    fun _ => rfl, fun _ => rfl⟩

/-- Claim C6: for every constructed variant, every field reads back exactly
as supplied at construction, with no default substituted once a value was
supplied: ClientResponseError (all five fields), ClientConnectorError
(stored connection key and OS error, plus the derived host, port, ssl and
os_error accessors), ClientConnectorSSLError,
ClientConnectorCertificateError (stored key and certificate error plus the
accessors), ServerDisconnectedError (a supplied message is stored, and the
None message only arises when no message was supplied),
ServerFingerprintMismatch (all four fields) and InvalidURL (the url); and a
three-element response history reads back with the same elements in the
same order and length exactly three. -/
theorem C6_field_roundtrip :
    (∀ (ri : RequestInfo) (hist : List ResponseSummary) (code : Nat)
        (msg : String) (hdrs : Option (List (String × String))),
      (ClientResponseError.init ri hist code msg hdrs).request_info = ri
      ∧ (ClientResponseError.init ri hist code msg hdrs).code = code
      ∧ (ClientResponseError.init ri hist code msg hdrs).message = msg
      ∧ (ClientResponseError.init ri hist code msg hdrs).headers = hdrs
      ∧ (ClientResponseError.init ri hist code msg hdrs).history = hist)
    ∧ (∀ (ri : RequestInfo) (a b c : ResponseSummary) (code : Nat)
        (msg : String) (hdrs : Option (List (String × String))),
      (ClientResponseError.init ri [a, b, c] code msg hdrs).history = [a, b, c]
      ∧ ((ClientResponseError.init ri [a, b, c] code msg hdrs).history).length = 3)
    ∧ (∀ (k : ConnectionKey) (o : OsErrorData),
      (ClientConnectorError.init k o).conn_key = k
      ∧ (ClientConnectorError.init k o).os_error = o
      ∧ (ClientConnectorError.init k o).osError = o
      ∧ (ClientConnectorError.init k o).host = k.host
      ∧ (ClientConnectorError.init k o).port = k.port
      ∧ (ClientConnectorError.init k o).ssl = k.ssl)
    ∧ (∀ (k : ConnectionKey) (o : OsErrorData),
      (ClientConnectorSSLError.init k o).conn_key = k
      ∧ (ClientConnectorSSLError.init k o).os_error = o)
    ∧ (∀ (k : ConnectionKey) (ce : Option PyExceptionObj),
      (ClientConnectorCertificateError.init k ce).conn_key = k
      ∧ (ClientConnectorCertificateError.init k ce).certificate_error = ce
      ∧ (ClientConnectorCertificateError.init k ce).certificateError = ce
      ∧ (ClientConnectorCertificateError.init k ce).host = k.host
      ∧ (ClientConnectorCertificateError.init k ce).port = k.port
      ∧ (ClientConnectorCertificateError.init k ce).ssl = k.ssl)
    ∧ (∀ m : PyVal, (ServerDisconnectedError.init m).message = m)
    ∧ ServerDisconnectedError.initDefault.message = PyVal.none
    ∧ (∀ (e g h : String) (p : Nat),
      (ServerFingerprintMismatch.init e g h p).expected = e
      ∧ (ServerFingerprintMismatch.init e g h p).got = g
      ∧ (ServerFingerprintMismatch.init e g h p).host = h
      ∧ (ServerFingerprintMismatch.init e g h p).port = p)
    ∧ (∀ u : PyVal, (InvalidURL.init u).url = some u) :=
  ⟨fun _ _ _ _ _ => ⟨rfl, rfl, rfl, rfl, rfl⟩,
    fun _ _ _ _ _ _ _ => ⟨rfl, rfl⟩,
    fun _ _ => ⟨rfl, rfl, rfl, rfl, rfl, rfl⟩,
    fun _ _ => ⟨rfl, rfl⟩,
    fun _ _ => ⟨rfl, rfl, rfl, rfl, rfl, rfl⟩,
    fun _ => rfl,
    rfl,
    fun _ _ _ _ => ⟨rfl, rfl, rfl, rfl⟩,
    fun _ => rfl⟩

/-- Claim C7, as stated, fails: with TLS absent, a constructed
ClientConnectorSSLError value is not classified as invalid-argument-shaped,
since its degraded base tuple holds only ClientConnectorError. -/
theorem C7_counterexample :
    isSubclass false ((ClientConnectorSSLError.init exampleKey exampleOsError).pyClass)
      PyClass.ValueError = false := by decide

/-- Claim C7 amended: with TLS absent, construction of both variants still
succeeds with the supplied fields stored; the certificate variant is
classified as invalid-argument-shaped, while the SSL variant is classified
only as a connector error and not as invalid-argument-shaped. -/
theorem C7_amended :
    (∀ (k : ConnectionKey) (o : OsErrorData),
      (ClientConnectorSSLError.init k o).conn_key = k
      ∧ (ClientConnectorSSLError.init k o).os_error = o)
    ∧ (∀ (k : ConnectionKey) (ce : Option PyExceptionObj),
      (ClientConnectorCertificateError.init k ce).conn_key = k
      ∧ (ClientConnectorCertificateError.init k ce).certificate_error = ce)
    ∧ isSubclass false PyClass.ClientConnectorCertificateError PyClass.ValueError = true
    ∧ isSubclass false PyClass.ClientConnectorSSLError PyClass.ClientConnectorError = true
    ∧ isSubclass false PyClass.ClientConnectorSSLError PyClass.ValueError = false :=
  ⟨fun k o => ⟨rfl, rfl⟩, fun k ce => ⟨rfl, rfl⟩, by decide, by decide, by decide⟩

/-- Claim C8: for every string s, InvalidURL(s) exposes url equal to s, and
every InvalidURL value is classified both as a client error and as an
invalid-argument error, whether or not TLS is available. -/
theorem C8_invalid_url :
    (∀ s : String, (InvalidURL.init (PyVal.str s)).url = some (PyVal.str s))
    ∧ (InvalidURL.init (PyVal.str "not a url")).url = some (PyVal.str "not a url")
    ∧ (∀ (b : Bool) (e : InvalidURL),
      isSubclass b (e.pyClass) PyClass.ClientError = true
      ∧ isSubclass b (e.pyClass) PyClass.ValueError = true) :=
  ⟨fun s => rfl, rfl, fun b _ => by cases b <;> exact ⟨rfl, rfl⟩⟩

/-- Claim C9: the certificate-error initializer stores only the connection
key and certificate error and never chains the OS-error initialization, so
errno and strerror stay unset and args stays empty, even though the class is
an OS-level error; the connector-error initializer, by contrast, fills
errno, strerror and a two-element args tuple from the OS error. -/
theorem C9_cert_skips_oserror_initialization :
    (∀ (k : ConnectionKey) (ce : Option PyExceptionObj),
      (ClientConnectorCertificateError.init k ce).errno = Option.none
      ∧ (ClientConnectorCertificateError.init k ce).strerror = Option.none
      ∧ (ClientConnectorCertificateError.init k ce).args = []
      ∧ (ClientConnectorCertificateError.init k ce).conn_key = k
      ∧ (ClientConnectorCertificateError.init k ce).certificate_error = ce)
    ∧ (∀ b : Bool,
      isSubclass b PyClass.ClientConnectorCertificateError PyClass.OSError = true)
    ∧ (∀ (k : ConnectionKey) (o : OsErrorData),
      (ClientConnectorError.init k o).errno = o.errno
      ∧ (ClientConnectorError.init k o).strerror = o.strerror
      ∧ (ClientConnectorError.init k o).args
          = [pyOfOptInt o.errno, pyOfOptStr o.strerror]) :=
  ⟨fun k ce => ⟨rfl, rfl, rfl, rfl, rfl⟩,
    fun b => by cases b <;> rfl,
    fun k o => ⟨rfl, rfl, rfl⟩⟩

/-- Claim C10, as stated, fails: although the initializer passes nothing to
the base initializer, the base constructor has already captured the four
positional arguments, so the plain string form of the concrete mismatch is
not empty. -/
theorem C10_counterexample :
    ((ServerFingerprintMismatch.init "AA:BB" "CC:DD" "h" 1234).str).isEmpty
      = false := by decide

/-- Claim C10 amended: the initializer itself passes nothing to the base
initializer, but the base constructor captures the four-argument tuple, so
the plain string form is the tuple rendering rather than the empty string,
and the four fields appear in the str form as well as in the repr form. -/
theorem C10_amended :
    (∀ (e g h : String) (p : Nat),
      (ServerFingerprintMismatch.init e g h p).args
        = [PyVal.str e, PyVal.str g, PyVal.str h, PyVal.int (Int.ofNat p)]
      ∧ (ServerFingerprintMismatch.init e g h p).str
        = pyTupleRepr [PyVal.str e, PyVal.str g, PyVal.str h, PyVal.int (Int.ofNat p)])
    ∧ ((ServerFingerprintMismatch.init "AA:BB" "CC:DD" "h" 1234).str).isEmpty = false
    ∧ strContains ((ServerFingerprintMismatch.init "AA:BB" "CC:DD" "h" 1234).str)
        "AA:BB" = true
    ∧ strContains ((ServerFingerprintMismatch.init "AA:BB" "CC:DD" "h" 1234).str)
        "CC:DD" = true
    ∧ strContains ((ServerFingerprintMismatch.init "AA:BB" "CC:DD" "h" 1234).reprOf)
        "AA:BB" = true
    ∧ strContains ((ServerFingerprintMismatch.init "AA:BB" "CC:DD" "h" 1234).reprOf)
        "CC:DD" = true :=
  ⟨fun e g h p => ⟨rfl, rfl⟩, by decide, by decide, by decide, by decide, by decide⟩
